import Mathlib

/-!
Shallow embedding of the solar-system scene program (src/script.js and the
richer variant src/unnamed/part_000).  The two variants share the descriptor
table, the scene-graph builder and the per-frame planet update; the richer
variant adds a label renderer, a decorative billboarded entity ("Theo"),
a focus-on-click operation and a label-renderer resize.

Numeric modelling: the JavaScript numbers of the program state (angles,
positions, sizes) are modelled as rationals — every value the program ever
stores in these fields is a rational literal or a sum/product of such — while
derived geometric queries (world positions, look-at matrices) live in ℝ,
where the library's cosine/sine enter.
-/

namespace SolarSim

/-- A 3-component vector with rational components, mirroring THREE.Vector3
(and THREE.Euler, whose x,y,z angle components are stored the same way) for
the values the program itself writes, which are all rational. -/
structure Vec3 where
  x : ℚ
  y : ℚ
  z : ℚ
deriving DecidableEq

/-- THREE.Vector3 and THREE.Euler default to (0,0,0). -/
def Vec3.zero : Vec3 := ⟨0, 0, 0⟩

/-- A 3-component vector with real components, for derived geometric
quantities (world positions, look-at frames). -/
structure RVec3 where
  x : ℝ
  y : ℝ
  z : ℝ

/-- One entry of the `solarSystemData` table (src/script.js lines 33–43,
identically src/unnamed/part_000 lines 44–54).  Fields that some entries
omit in the source are Options. -/
structure CelestialBodyDescriptor where
  name : String
  radius : ℚ
  color : ℕ
  isSun : Bool := false
  orbitalRadius : Option ℚ := none
  orbitalSpeed : Option ℚ := none
  rotationSpeed : Option ℚ := none
  hasRing : Bool := false
deriving DecidableEq

/-- JavaScript truthiness of an optional numeric field: `undefined` and `0`
are falsy, any other number is truthy (the program has no NaN values in
these fields). -/
def numTruthy : Option ℚ → Bool
  | none => false
  | some q => q != 0

/-- Transform state of a THREE.Object3D node as this program uses it:
a local position and local Euler rotation angles (order XYZ, the THREE
default).  Scale, quaternion syncing, and children not touched by the
claims (labels, rings) are not modelled. -/
structure Obj3D where
  position : Vec3 := Vec3.zero
  rotation : Vec3 := Vec3.zero
deriving DecidableEq

/-- One record of the `celestialObjects` array: the body's mesh, its orbit
pivot when the body is not the sun, and its descriptor
(src/script.js lines 63–96). -/
structure SceneObj where
  mesh : Obj3D
  pivot : Option Obj3D := none
  data : CelestialBodyDescriptor
deriving DecidableEq

/-- The body of `solarSystemData.forEach(data => ...)`
(src/script.js lines 48–97): the sun's mesh is added to the scene root with
its default transform; every other body gets a fresh orbit pivot at the
scene origin and its mesh is placed at local x = orbitalRadius under that
pivot.  Materials, geometry, rings and labels carry no transform state that
the claims touch and are not modelled.  A descriptor lacking `orbitalRadius`
writes `undefined` into position.x in JavaScript; the branch is modelled
with `Option.getD 0`, and no theorem below depends on the written value in
that case. -/
def buildObject (data : CelestialBodyDescriptor) : SceneObj :=
  if data.isSun then
    { mesh := {}, pivot := none, data := data }
  else
    { mesh := { position := { Vec3.zero with x := data.orbitalRadius.getD 0 } },
      pivot := some {},
      data := data }

/-- The whole builder loop: it pushes exactly one `celestialObjects` record
per descriptor, with no validation of any kind. -/
def buildObjects (descriptors : List CelestialBodyDescriptor) : List SceneObj :=
  descriptors.map buildObject

/-- The descriptors of the source table, as named constants. -/
def sunData : CelestialBodyDescriptor :=
  { name := "Sun", radius := 20, color := 0xFFFF00, isSun := true }

def mercuryData : CelestialBodyDescriptor :=
  { name := "Mercury", radius := 2, color := 0xAAAAAA, orbitalRadius := some 50,
    orbitalSpeed := some 0.04, rotationSpeed := some 0.01 }

def venusData : CelestialBodyDescriptor :=
  { name := "Venus", radius := 4, color := 0xFFE4B5, orbitalRadius := some 80,
    orbitalSpeed := some 0.025, rotationSpeed := some 0.005 }

def earthData : CelestialBodyDescriptor :=
  { name := "Earth", radius := 4.5, color := 0x4682B4, orbitalRadius := some 120,
    orbitalSpeed := some 0.015, rotationSpeed := some 0.02 }

def marsData : CelestialBodyDescriptor :=
  { name := "Mars", radius := 3, color := 0xFF4500, orbitalRadius := some 160,
    orbitalSpeed := some 0.01, rotationSpeed := some 0.018 }

def jupiterData : CelestialBodyDescriptor :=
  { name := "Jupiter", radius := 12, color := 0xD2B48C, orbitalRadius := some 220,
    orbitalSpeed := some 0.005, rotationSpeed := some 0.04 }

def saturnData : CelestialBodyDescriptor :=
  { name := "Saturn", radius := 10, color := 0xF4A460, orbitalRadius := some 280,
    orbitalSpeed := some 0.003, rotationSpeed := some 0.035, hasRing := true }

def uranusData : CelestialBodyDescriptor :=
  { name := "Uranus", radius := 7, color := 0xAFEEEE, orbitalRadius := some 340,
    orbitalSpeed := some 0.002, rotationSpeed := some 0.025 }

def neptuneData : CelestialBodyDescriptor :=
  { name := "Neptune", radius := 6.5, color := 0x4169E1, orbitalRadius := some 390,
    orbitalSpeed := some 0.001, rotationSpeed := some 0.023 }

/-- `solarSystemData` (src/script.js lines 33–43). -/
def solarSystemData : List CelestialBodyDescriptor :=
  [sunData, mercuryData, venusData, earthData, marsData, jupiterData,
   saturnData, uranusData, neptuneData]

/-- One pass of the per-object planet update inside `animate()`
(src/script.js lines 109–121; identically src/unnamed/part_000 lines
174–185): if `rotationSpeed` is truthy, add it to the mesh's rotation.y;
if the object has a pivot and `orbitalSpeed` is truthy, add
`orbitalSpeed * 0.5` to the pivot's rotation.y.  The frame's wall-clock
`delta` is read from the clock in the source but never used; it is kept as
an (ignored) argument to state delta-independence. -/
def tickObj (delta : ℚ) (o : SceneObj) : SceneObj :=
  let _ := delta
  let mesh :=
    if numTruthy o.data.rotationSpeed then
      { o.mesh with rotation :=
          { o.mesh.rotation with y := o.mesh.rotation.y + o.data.rotationSpeed.getD 0 } }
    else o.mesh
  let pivot :=
    match o.pivot with
    | none => o.pivot
    | some p =>
      if numTruthy o.data.orbitalSpeed then
        some { p with rotation :=
          { p.rotation with y := p.rotation.y + o.data.orbitalSpeed.getD 0 * 0.5 } }
      else o.pivot
  { o with mesh := mesh, pivot := pivot }

/-- N animation ticks applied to one object, one per observed wall-clock
delta. -/
def tickObjMany (deltas : List ℚ) (o : SceneObj) : SceneObj :=
  deltas.foldl (fun s d => tickObj d s) o

/-- The orbit-pivot rotation angle of an object (0 for the sun, which has
no pivot). -/
def pivotAngle (o : SceneObj) : ℚ :=
  match o.pivot with
  | none => 0
  | some p => p.rotation.y

/-- The self-rotation angle of an object's mesh. -/
def selfAngle (o : SceneObj) : ℚ :=
  o.mesh.rotation.y

/-- The orbit pivot's position (the scene origin for every built object;
Vec3.zero when there is no pivot). -/
def pivotPos (o : SceneObj) : Vec3 :=
  match o.pivot with
  | none => Vec3.zero
  | some p => p.position

/-- The orbit pivot's rotation angle about X (never written by the
program, hence 0 throughout). -/
def pivotRotX (o : SceneObj) : ℚ :=
  match o.pivot with
  | none => 0
  | some p => p.rotation.x

/-- The orbit pivot's rotation angle about Z. -/
def pivotRotZ (o : SceneObj) : ℚ :=
  match o.pivot with
  | none => 0
  | some p => p.rotation.z

/-- Cast of a program-state vector into ℝ. -/
noncomputable def toR (v : Vec3) : RVec3 :=
  ⟨(v.x : ℝ), (v.y : ℝ), (v.z : ℝ)⟩

/-- Componentwise sum. -/
noncomputable def addR (a b : RVec3) : RVec3 :=
  ⟨a.x + b.x, a.y + b.y, a.z + b.z⟩

/-- Rotation of a vector about the X axis by angle θ (the THREE.Matrix4
basic rotation matrix applied to a column vector). -/
noncomputable def rotXApply (θ : ℝ) (v : RVec3) : RVec3 :=
  ⟨v.x, Real.cos θ * v.y - Real.sin θ * v.z, Real.sin θ * v.y + Real.cos θ * v.z⟩

/-- Rotation about the Y axis: THREE.Matrix4.makeRotationY sets rows
(c 0 s / 0 1 0 / -s 0 c). -/
noncomputable def rotYApply (θ : ℝ) (v : RVec3) : RVec3 :=
  ⟨Real.cos θ * v.x + Real.sin θ * v.z, v.y,
   -(Real.sin θ) * v.x + Real.cos θ * v.z⟩

/-- Rotation about the Z axis. -/
noncomputable def rotZApply (θ : ℝ) (v : RVec3) : RVec3 :=
  ⟨Real.cos θ * v.x - Real.sin θ * v.y,
   Real.sin θ * v.x + Real.cos θ * v.y, v.z⟩

/-- Application of a THREE Euler rotation in the default order XYZ:
the composed matrix is Rx · Ry · Rz (THREE.Matrix4.makeRotationFromEuler),
so the vector is rotated about Z first, then Y, then X. -/
noncomputable def eulerApply (e : Vec3) (v : RVec3) : RVec3 :=
  rotXApply (e.x : ℝ) (rotYApply (e.y : ℝ) (rotZApply (e.z : ℝ) v))

/-- World position of a body's mesh, as THREE.Object3D.getWorldPosition
computes it for this scene graph: the scene root is the identity; a sun
mesh sits directly under the root, so its world position is its local
position; a planet mesh sits under its pivot, whose world matrix is the
translation by the pivot's position composed with its Euler rotation, so
the mesh's world position is pivot.position + R(pivot.rotation) · mesh
local position.  (The mesh's own rotation spins it in place and does not
move its origin.) -/
noncomputable def worldPosition (o : SceneObj) : RVec3 :=
  match o.pivot with
  | none => toR o.mesh.position
  | some p => addR (toR p.position) (eulerApply p.rotation (toR o.mesh.position))

/-- The scene state of a non-central body whose pivot has been rotated to
angle θ: exactly the builder's output for its descriptor with the pivot's
rotation.y — the only pivot field the animation loop ever changes — set
to θ. -/
def planetAtAngle (data : CelestialBodyDescriptor) (θ : ℚ) : SceneObj :=
  let o := buildObject data
  { o with pivot := o.pivot.map (fun p => { p with rotation := { p.rotation with y := θ } }) }

/-- The Earth-like scenario object after 100 animation ticks (the observed
wall-clock deltas are irrelevant to the planet update; one second each is
used here). -/
def earthAfter100 : SceneObj :=
  tickObjMany (List.replicate 100 1) (buildObject earthData)

/-- A 3×3 rotation frame given by its columns, mirroring the rotation part
of a THREE.Matrix4 (whose elements array is column-major). -/
structure Mat3 where
  colX : RVec3
  colY : RVec3
  colZ : RVec3

/-- Squared length, as THREE.Vector3.lengthSq. -/
noncomputable def lengthSq (v : RVec3) : ℝ :=
  v.x * v.x + v.y * v.y + v.z * v.z

/-- Length, as THREE.Vector3.length. -/
noncomputable def vlength (v : RVec3) : ℝ :=
  Real.sqrt (lengthSq v)

/-- Scalar multiple. -/
noncomputable def smulR (c : ℝ) (v : RVec3) : RVec3 :=
  ⟨c * v.x, c * v.y, c * v.z⟩

/-- Componentwise difference, as THREE.Vector3.subVectors. -/
noncomputable def subR (a b : RVec3) : RVec3 :=
  ⟨a.x - b.x, a.y - b.y, a.z - b.z⟩

/-- Cross product, as THREE.Vector3.crossVectors. -/
noncomputable def crossR (a b : RVec3) : RVec3 :=
  ⟨a.y * b.z - a.z * b.y, a.z * b.x - a.x * b.z, a.x * b.y - a.y * b.x⟩

open Classical in
/-- THREE.Vector3.normalize: divide by the length, or by 1 when the length
is zero (`divideScalar( this.length() || 1 )`). -/
noncomputable def vnormalize (v : RVec3) : RVec3 :=
  let l := vlength v
  smulR (1 / (if l = 0 then 1 else l)) v

open Classical in
/-- THREE.Matrix4.lookAt(eye, target, up), rotation part: z is the
normalized eye−target direction (patched to (0,0,1) when eye = target),
x = normalize(up × z) (with the source's 0.0001 nudge of z and
recomputation when up and z are parallel), y = z × x; the matrix columns
are x, y, z. -/
noncomputable def lookAtMat (eye target up : RVec3) : Mat3 :=
  let z0 := subR eye target
  let z1 := if lengthSq z0 = 0 then { z0 with z := 1 } else z0
  let z2 := vnormalize z1
  let x0 := crossR up z2
  let zx :=
    if lengthSq x0 = 0 then
      let z3 := if |up.z| = 1 then { z2 with x := z2.x + 0.0001 }
                else { z2 with z := z2.z + 0.0001 }
      let z4 := vnormalize z3
      (z4, crossR up z4)
    else (z2, x0)
  let x1 := vnormalize zx.2
  ⟨x1, crossR zx.1 x1, zx.1⟩

/-- Matrix–vector application for a column frame. -/
noncomputable def matApply (m : Mat3) (v : RVec3) : RVec3 :=
  addR (smulR v.x m.colX) (addR (smulR v.y m.colY) (smulR v.z m.colZ))

/-- Matrix product. -/
noncomputable def matMul (a b : Mat3) : Mat3 :=
  ⟨matApply a b.colX, matApply a b.colY, matApply a b.colZ⟩

/-- The basic Z-rotation matrix. -/
noncomputable def rotZMat (θ : ℝ) : Mat3 :=
  ⟨⟨Real.cos θ, Real.sin θ, 0⟩, ⟨-(Real.sin θ), Real.cos θ, 0⟩, ⟨0, 0, 1⟩⟩

/-- The decorative entity's transform state: its world position (it is a
direct child of the scene root) and its orientation as a rotation frame
(THREE stores a quaternion kept in sync with the Euler view; the frame is
the equivalent matrix form). -/
structure TheoState where
  position : RVec3
  orient : Mat3

/-- The Theo branch of `animate()` (src/unnamed/part_000 lines 152–172):
position is set from the elapsed time along a tilted ellipse
(orbitRadiusX = 300, orbitRadiusZ = 200, speed = 0.1, tiltAngle = π/6),
then rotation.z is incremented by 0.005 — on the matrix form, a right
multiplication by the basic Z rotation, since the Euler triple (x,y,z+δ)
rebuilds to Rx·Ry·Rz(z)·Rz(δ) — and finally Object3D.lookAt(camera
.position) overwrites the whole orientation with the look-at frame
(for a non-camera object, Matrix4.lookAt(target, position, up) with
up = (0,1,0)). -/
noncomputable def theoTick (cameraPosition : RVec3) (elapsedTime : ℝ)
    (s : TheoState) : TheoState :=
  let orbitRadiusX : ℝ := 300
  let orbitRadiusZ : ℝ := 200
  let speed : ℝ := 0.1
  let tiltAngle : ℝ := Real.pi / 6
  let angle := elapsedTime * speed
  let x := Real.cos angle * orbitRadiusX
  let zRaw := Real.sin angle * orbitRadiusZ
  let y := Real.sin angle * orbitRadiusZ * Real.sin tiltAngle
  let z := zRaw * Real.cos tiltAngle
  let moved : TheoState := { s with position := ⟨x, y, z⟩ }
  let spun : TheoState := { moved with orient := matMul moved.orient (rotZMat 0.005) }
  { spun with orient := lookAtMat cameraPosition spun.position ⟨0, 1, 0⟩ }

/-- Size of a renderer viewport (renderer.setSize). -/
structure RendererState where
  width : ℚ
  height : ℚ
deriving DecidableEq

/-- The application state the claims touch: the celestial objects, the
decorative entity, the camera's aspect ratio and position, the
OrbitControls focus target, and the two renderer viewports
(src/unnamed/part_000; src/script.js is the same minus label renderer and
Theo). -/
structure AppState where
  objects : List SceneObj
  theo : TheoState
  cameraAspect : ℚ
  cameraPosition : RVec3
  controlsTarget : RVec3
  renderer : RendererState
  labelRenderer : RendererState

/-- One frame of `animate()` (src/unnamed/part_000 lines 144–194): every
celestial object is stepped, Theo is stepped from the elapsed time and
current camera position.  `controls.update()` advances the camera's damped
interpolation but never mutates `controls.target` absent user input, and
the two render calls mutate nothing modelled, so neither appears in the
state transition. -/
noncomputable def animateTick (delta : ℚ) (elapsedTime : ℝ) (st : AppState) : AppState :=
  { st with objects := st.objects.map (tickObj delta),
            theo := theoTick st.cameraPosition elapsedTime st.theo }

/-- `focusOnObject` (src/unnamed/part_000 lines 196–208): the mesh's world
position is read into a scratch vector and value-copied into
`controls.target`. -/
noncomputable def focusOnObject (o : SceneObj) (st : AppState) : AppState :=
  { st with controlsTarget := worldPosition o }

/-- The resize handler (src/unnamed/part_000 lines 210–220): camera aspect
W/H and both renderer viewports (W,H); nothing else is touched. -/
def resize (w h : ℚ) (st : AppState) : AppState :=
  { st with cameraAspect := w / h,
            renderer := ⟨w, h⟩,
            labelRenderer := ⟨w, h⟩ }

/-- Modelled from the spec: a malformed static configuration in the sense
of the InvalidDescriptor discussion — "negative radius, non-central body
missing orbitalRadius".  The source contains no such check; this predicate
exists only to state the claim about it. -/
def malformedDescriptor (d : CelestialBodyDescriptor) : Prop :=
  d.radius < 0 ∨ (d.isSun = false ∧ d.orbitalRadius = none)

/-- A concrete malformed descriptor: negative radius. -/
def badDescriptor : CelestialBodyDescriptor :=
  { name := "Degenerate", radius := -1, color := 0, orbitalRadius := some 50,
    orbitalSpeed := some 0.01, rotationSpeed := some 0.01 }

/-- A concrete startup application state: the built scene, camera at its
start position aimed at the origin, viewports not yet sized. -/
noncomputable def initialAppState : AppState :=
  { objects := buildObjects solarSystemData,
    theo := ⟨⟨0, 0, 0⟩, rotZMat 0⟩,
    cameraAspect := 1,
    cameraPosition := ⟨0, 150, 400⟩,
    controlsTarget := ⟨0, 0, 0⟩,
    renderer := ⟨0, 0⟩,
    labelRenderer := ⟨0, 0⟩ }

/-! ## Helper lemmas about single ticks and tick sequences -/

/-- A tick never changes the descriptor attached to an object. -/
lemma tickObj_data (d : ℚ) (o : SceneObj) : (tickObj d o).data = o.data := rfl

/-- A tick never changes a mesh's local position. -/
lemma tickObj_mesh_position (d : ℚ) (o : SceneObj) :
    (tickObj d o).mesh.position = o.mesh.position := by
  unfold tickObj
  dsimp only
  split <;> rfl

/-- A tick changes neither presence nor position of the orbit pivot, nor
its rotation about X and Z. -/
lemma tickObj_pivot_isSome (d : ℚ) (o : SceneObj) :
    (tickObj d o).pivot.isSome = o.pivot.isSome := by
  unfold tickObj
  dsimp only
  cases h : o.pivot <;> simp [h]
  split <;> simp

/-- A tick adds exactly the descriptor's rotation speed to the mesh's
self-rotation angle (for a zero speed the JavaScript truthiness guard
skips the addition, which adds zero all the same). -/
lemma tickObj_selfAngle (d : ℚ) (o : SceneObj) (r : ℚ)
    (h : o.data.rotationSpeed = some r) :
    (tickObj d o).mesh.rotation.y = o.mesh.rotation.y + r := by
  by_cases hr : r = 0
  · subst hr
    simp [tickObj, numTruthy, h]
  · simp [tickObj, numTruthy, h, hr]

/-- A tick adds exactly half the descriptor's orbital speed to the pivot
angle of an object that has a pivot. -/
lemma tickObj_pivotAngle (d : ℚ) (o : SceneObj) (s : ℚ)
    (h : o.data.orbitalSpeed = some s) (hp : o.pivot.isSome) :
    pivotAngle (tickObj d o) = pivotAngle o + s * 0.5 := by
  obtain ⟨p, hpv⟩ := Option.isSome_iff_exists.mp hp
  by_cases hs : s = 0
  · subst hs
    simp [tickObj, pivotAngle, numTruthy, h, hpv]
  · simp [tickObj, pivotAngle, numTruthy, h, hs, hpv]

/-- Unfolding of a tick sequence. -/
lemma tickObjMany_cons (d : ℚ) (ds : List ℚ) (o : SceneObj) :
    tickObjMany (d :: ds) o = tickObjMany ds (tickObj d o) := rfl

/-- N ticks never change the descriptor. -/
lemma tickObjMany_data (ds : List ℚ) (o : SceneObj) :
    (tickObjMany ds o).data = o.data := by
  induction ds generalizing o with
  | nil => rfl
  | cons d ds ih => rw [tickObjMany_cons, ih, tickObj_data]

/-- N ticks never change a mesh's local position. -/
lemma tickObjMany_mesh_position (ds : List ℚ) (o : SceneObj) :
    (tickObjMany ds o).mesh.position = o.mesh.position := by
  induction ds generalizing o with
  | nil => rfl
  | cons d ds ih => rw [tickObjMany_cons, ih, tickObj_mesh_position]

/-- N ticks never add or remove the pivot. -/
lemma tickObjMany_pivot_isSome (ds : List ℚ) (o : SceneObj) :
    (tickObjMany ds o).pivot.isSome = o.pivot.isSome := by
  induction ds generalizing o with
  | nil => rfl
  | cons d ds ih => rw [tickObjMany_cons, ih, tickObj_pivot_isSome]

/-- Accumulation of self-rotation over any tick sequence: one increment of
r per tick, independent of the observed deltas. -/
lemma tickObjMany_selfAngle (ds : List ℚ) (o : SceneObj) (r : ℚ)
    (h : o.data.rotationSpeed = some r) :
    (tickObjMany ds o).mesh.rotation.y = o.mesh.rotation.y + ds.length * r := by
  induction ds generalizing o with
  | nil => simp [tickObjMany]
  | cons d ds ih =>
    rw [tickObjMany_cons, ih (tickObj d o) (by rw [tickObj_data]; exact h),
        tickObj_selfAngle d o r h, List.length_cons]
    push_cast
    ring

/-- Accumulation of the pivot angle over any tick sequence: one increment
of s·0.5 per tick. -/
lemma tickObjMany_pivotAngle (ds : List ℚ) (o : SceneObj) (s : ℚ)
    (h : o.data.orbitalSpeed = some s) (hp : o.pivot.isSome) :
    pivotAngle (tickObjMany ds o) = pivotAngle o + ds.length * (s * 0.5) := by
  induction ds generalizing o with
  | nil => simp [tickObjMany]
  | cons d ds ih =>
    rw [tickObjMany_cons, ih (tickObj d o) (by rw [tickObj_data]; exact h)
          (by rw [tickObj_pivot_isSome]; exact hp),
        tickObj_pivotAngle d o s h hp, List.length_cons]
    push_cast
    ring

/-- A tick never moves the pivot. -/
lemma tickObj_pivotPos (d : ℚ) (o : SceneObj) : pivotPos (tickObj d o) = pivotPos o := by
  unfold tickObj pivotPos
  dsimp only
  cases h : o.pivot <;> by_cases hc : numTruthy o.data.orbitalSpeed <;> simp [h, hc]

/-- A tick never writes the pivot's X rotation. -/
lemma tickObj_pivotRotX (d : ℚ) (o : SceneObj) : pivotRotX (tickObj d o) = pivotRotX o := by
  unfold tickObj pivotRotX
  dsimp only
  cases h : o.pivot <;> by_cases hc : numTruthy o.data.orbitalSpeed <;> simp [h, hc]

/-- A tick never writes the pivot's Z rotation. -/
lemma tickObj_pivotRotZ (d : ℚ) (o : SceneObj) : pivotRotZ (tickObj d o) = pivotRotZ o := by
  unfold tickObj pivotRotZ
  dsimp only
  cases h : o.pivot <;> by_cases hc : numTruthy o.data.orbitalSpeed <;> simp [h, hc]

/-- N ticks never move the pivot. -/
lemma tickObjMany_pivotPos (ds : List ℚ) (o : SceneObj) :
    pivotPos (tickObjMany ds o) = pivotPos o := by
  induction ds generalizing o with
  | nil => rfl
  | cons d ds ih => rw [tickObjMany_cons, ih, tickObj_pivotPos]

/-- N ticks never write the pivot's X rotation. -/
lemma tickObjMany_pivotRotX (ds : List ℚ) (o : SceneObj) :
    pivotRotX (tickObjMany ds o) = pivotRotX o := by
  induction ds generalizing o with
  | nil => rfl
  | cons d ds ih => rw [tickObjMany_cons, ih, tickObj_pivotRotX]

/-- N ticks never write the pivot's Z rotation. -/
lemma tickObjMany_pivotRotZ (ds : List ℚ) (o : SceneObj) :
    pivotRotZ (tickObjMany ds o) = pivotRotZ o := by
  induction ds generalizing o with
  | nil => rfl
  | cons d ds ih => rw [tickObjMany_cons, ih, tickObj_pivotRotZ]

/-- World position through a present pivot. -/
lemma worldPosition_some (o : SceneObj) (p : Obj3D) (h : o.pivot = some p) :
    worldPosition o = addR (toR p.position) (eulerApply p.rotation (toR o.mesh.position)) := by
  unfold worldPosition
  rw [h]

/-- World position of an object with a pivot, written through the pivot
accessors. -/
lemma worldPosition_accessors (o : SceneObj) (hp : o.pivot.isSome = true) :
    worldPosition o = addR (toR (pivotPos o))
      (eulerApply ⟨pivotRotX o, pivotAngle o, pivotRotZ o⟩ (toR o.mesh.position)) := by
  obtain ⟨p, h⟩ := Option.isSome_iff_exists.mp hp
  rw [worldPosition_some o p h]
  simp [pivotPos, pivotRotX, pivotAngle, pivotRotZ, h]

/-- The pivot transform of this program — rotation only about Y, pivot at
the origin — sends a mesh at local (R,0,0) to world
(R·cos θ, 0, −R·sin θ). -/
lemma pivot_world_formula (θ R : ℚ) :
    addR (toR Vec3.zero) (eulerApply ⟨0, θ, 0⟩ (toR ⟨R, 0, 0⟩)) =
      ⟨(R : ℝ) * Real.cos (θ : ℝ), 0, -((R : ℝ) * Real.sin (θ : ℝ))⟩ := by
  simp [addR, toR, eulerApply, rotXApply, rotYApply, rotZApply, Vec3.zero]
  constructor <;> ring

/-- Shape of a non-central body at a prescribed pivot angle. -/
lemma planetAtAngle_pivot (data : CelestialBodyDescriptor) (h1 : data.isSun = false) (θ : ℚ) :
    (planetAtAngle data θ).pivot = some ⟨Vec3.zero, ⟨0, θ, 0⟩⟩ := by
  simp [planetAtAngle, buildObject, h1]
  exact ⟨rfl, rfl⟩

/-- Local mesh offset of a non-central body at a prescribed pivot angle. -/
lemma planetAtAngle_mesh_position (data : CelestialBodyDescriptor) (R : ℚ)
    (h1 : data.isSun = false) (h2 : data.orbitalRadius = some R) (θ : ℚ) :
    (planetAtAngle data θ).mesh.position = ⟨R, 0, 0⟩ := by
  simp [planetAtAngle, buildObject, h1, h2]
  exact ⟨rfl, rfl⟩

/-- The Earth-like scenario: 100 ticks at orbital speed 0.015 leave the
pivot at 100 · (0.015 · 0.5) = 0.75 radians. -/
lemma earthAfter100_pivotAngle : pivotAngle earthAfter100 = 0.75 := by
  have h := tickObjMany_pivotAngle (List.replicate 100 1) (buildObject earthData) 0.015 rfl rfl
  have h0 : pivotAngle (buildObject earthData) = 0 := rfl
  show pivotAngle (tickObjMany (List.replicate 100 1) (buildObject earthData)) = 0.75
  rw [h, h0, List.length_replicate]
  norm_num

/-- The Earth-like scenario: the world position after 100 ticks, as the
scene graph actually computes it. -/
lemma earthAfter100_worldPosition :
    worldPosition earthAfter100 =
      ⟨(120 : ℝ) * Real.cos 0.75, 0, -((120 : ℝ) * Real.sin 0.75)⟩ := by
  have hp : earthAfter100.pivot.isSome = true := by
    show (tickObjMany (List.replicate 100 1) (buildObject earthData)).pivot.isSome = true
    rw [tickObjMany_pivot_isSome]
    rfl
  have h1 : pivotPos earthAfter100 = Vec3.zero := by
    show pivotPos (tickObjMany (List.replicate 100 1) (buildObject earthData)) = Vec3.zero
    rw [tickObjMany_pivotPos]
    rfl
  have h2 : pivotRotX earthAfter100 = 0 := by
    show pivotRotX (tickObjMany (List.replicate 100 1) (buildObject earthData)) = 0
    rw [tickObjMany_pivotRotX]
    rfl
  have h3 : pivotRotZ earthAfter100 = 0 := by
    show pivotRotZ (tickObjMany (List.replicate 100 1) (buildObject earthData)) = 0
    rw [tickObjMany_pivotRotZ]
    rfl
  have h4 : earthAfter100.mesh.position = ⟨120, 0, 0⟩ := by
    show (tickObjMany (List.replicate 100 1) (buildObject earthData)).mesh.position = ⟨120, 0, 0⟩
    rw [tickObjMany_mesh_position]
    rfl
  rw [worldPosition_accessors earthAfter100 hp, h1, h2, h3, earthAfter100_pivotAngle, h4,
      pivot_world_formula]
  push_cast
  norm_num

/-! ## The claims -/

/-- C1 (counterexample): the claim's world-position formula
(orbitalRadius·cos θ, 0, orbitalRadius·sin θ) fails at the claim's own
scenario: after 100 ticks of the descriptor with orbitalRadius = 120 and
orbital speed 0.015, the pivot angle is 0.75 rad, but the scene graph
places the mesh at world Z = −120·sin 0.75 ≈ −81.8, not +120·sin 0.75
(rotation about Y by θ maps (R,0,0) to (R·cos θ, 0, −R·sin θ)). -/
theorem c1_sign_counterexample :
    pivotAngle earthAfter100 = 0.75 ∧
    worldPosition earthAfter100 ≠
      ⟨(120 : ℝ) * Real.cos 0.75, 0, (120 : ℝ) * Real.sin 0.75⟩ := by
  refine ⟨earthAfter100_pivotAngle, ?_⟩
  rw [earthAfter100_worldPosition]
  intro hEq
  have hz : -((120 : ℝ) * Real.sin 0.75) = (120 : ℝ) * Real.sin 0.75 :=
    congrArg RVec3.z hEq
  have hpos : 0 < Real.sin 0.75 :=
    Real.sin_pos_of_pos_of_lt_pi (by norm_num) (by nlinarith [Real.pi_gt_three])
  nlinarith [hpos, hz]

/-- C1 (amended): for every non-central body whose orbit pivot has
rotation angle θ, the world position of the body's mesh equals
(orbitalRadius·cos θ, 0, −orbitalRadius·sin θ) relative to the scene
origin; in the scenario with orbitalRadius = 120 and orbital speed 0.015,
after 100 ticks the pivot angle is 0.75 rad and the world position is
X = 120·cos 0.75 ≈ 87.9, Z = −120·sin 0.75 ≈ −81.8. -/
theorem c1_world_position_formula (data : CelestialBodyDescriptor) (R : ℚ)
    (h1 : data.isSun = false) (h2 : data.orbitalRadius = some R) (θ : ℚ) :
    worldPosition (planetAtAngle data θ) =
      ⟨(R : ℝ) * Real.cos (θ : ℝ), 0, -((R : ℝ) * Real.sin (θ : ℝ))⟩ ∧
    pivotAngle earthAfter100 = 0.75 ∧
    worldPosition earthAfter100 =
      ⟨(120 : ℝ) * Real.cos 0.75, 0, -((120 : ℝ) * Real.sin 0.75)⟩ := by
  refine ⟨?_, earthAfter100_pivotAngle, earthAfter100_worldPosition⟩
  rw [worldPosition_some (planetAtAngle data θ) ⟨Vec3.zero, ⟨0, θ, 0⟩⟩
        (planetAtAngle_pivot data h1 θ),
      planetAtAngle_mesh_position data R h1 h2 θ]
  exact pivot_world_formula θ R

/-- C1 witness: the amended formula instantiated at the Earth descriptor
and pivot angle 0.75. -/
theorem c1_witness :
    earthData.isSun = false ∧ earthData.orbitalRadius = some 120 ∧
    worldPosition (planetAtAngle earthData 0.75) =
      ⟨((120 : ℚ) : ℝ) * Real.cos ((0.75 : ℚ) : ℝ), 0,
       -(((120 : ℚ) : ℝ) * Real.sin ((0.75 : ℚ) : ℝ))⟩ :=
  ⟨rfl, rfl, (c1_world_position_formula earthData 120 rfl rfl 0.75).1⟩

/-- C2: for every object whose descriptor has a rotationAngularSpeed r,
after N ticks the mesh's self-rotation angle equals its initial angle plus
N·r exactly (hence also mod 2π), whatever wall-clock deltas the ticks
observed: rotation is frame-count-driven, not time-driven. -/
theorem c2_rotation_frame_count_driven (o : SceneObj) (r : ℚ)
    (h : o.data.rotationSpeed = some r) (deltas : List ℚ) :
    selfAngle (tickObjMany deltas o) = selfAngle o + deltas.length * r :=
  tickObjMany_selfAngle deltas o r h

/-- C2 witness: the built Earth object, two ticks with very different
deltas, angle 2 · 0.02. -/
theorem c2_witness :
    (buildObject earthData).data.rotationSpeed = some 0.02 ∧
    selfAngle (tickObjMany [5, 0.001] (buildObject earthData)) =
      selfAngle (buildObject earthData) + 2 * 0.02 := by
  refine ⟨rfl, ?_⟩
  have h := c2_rotation_frame_count_driven (buildObject earthData) 0.02 rfl [5, 0.001]
  simpa using h

/-- C3: for every object with a pivot and an orbitalAngularSpeed s, after
N ticks the pivot's rotation angle equals its initial angle plus
N·(s·0.5) exactly (hence also mod 2π). -/
theorem c3_pivot_half_speed_accumulation (o : SceneObj) (s : ℚ)
    (hs : o.data.orbitalSpeed = some s) (hp : o.pivot.isSome = true) (deltas : List ℚ) :
    pivotAngle (tickObjMany deltas o) = pivotAngle o + deltas.length * (s * 0.5) :=
  tickObjMany_pivotAngle deltas o s hs hp

/-- C3 witness: the built Earth object after 100 ticks sits at pivot angle
100 · (0.015 · 0.5) = 0.75. -/
theorem c3_witness :
    (buildObject earthData).data.orbitalSpeed = some 0.015 ∧
    (buildObject earthData).pivot.isSome = true ∧
    pivotAngle (tickObjMany (List.replicate 100 1) (buildObject earthData)) = 0.75 := by
  refine ⟨rfl, rfl, ?_⟩
  have h := c3_pivot_half_speed_accumulation (buildObject earthData) 0.015 rfl rfl
    (List.replicate 100 1)
  have h0 : pivotAngle (buildObject earthData) = 0 := rfl
  rw [h, h0, List.length_replicate]
  norm_num

/-- C4: focusing a body sets the camera focus target to exactly that
body's world position at the moment of the call (world position composes
the pivot transform with the mesh offset, see `worldPosition`), and a
subsequent animation tick — which advances pivots and meshes — leaves the
already-captured target unchanged. -/
theorem c4_focus_captures_world_position (st : AppState) (o : SceneObj)
    (delta : ℚ) (elapsedTime : ℝ) :
    (focusOnObject o st).controlsTarget = worldPosition o ∧
    (animateTick delta elapsedTime (focusOnObject o st)).controlsTarget = worldPosition o :=
  ⟨rfl, rfl⟩

/-- C5 (counterexample): the Builder does not reject malformed
descriptors: for the descriptor with radius −1 it still constructs one
SceneEntity instead of failing. -/
theorem c5_no_rejection_counterexample :
    malformedDescriptor badDescriptor ∧ (buildObjects [badDescriptor]).length = 1 :=
  ⟨Or.inl (by norm_num [badDescriptor]), rfl⟩

/-- C5 (amended): for every malformed descriptor (negative radius, or a
non-central body missing orbitalRadius) the Builder performs no validation
and constructs exactly one SceneEntity anyway; the InvalidDescriptor
rejection is an unimplemented recommendation of the spec, not behaviour of
the code. -/
theorem c5_builder_never_fails (d : CelestialBodyDescriptor)
    (h : malformedDescriptor d) : (buildObjects [d]).length = 1 := rfl

/-- C5 witness: the amended statement at the concrete malformed
descriptor. -/
theorem c5_witness :
    malformedDescriptor badDescriptor ∧ (buildObjects [badDescriptor]).length = 1 :=
  have hm : malformedDescriptor badDescriptor := Or.inl (by norm_num [badDescriptor])
  ⟨hm, c5_builder_never_fails badDescriptor hm⟩

/-- C6: the central body's mesh position is unchanged by any number of
animation ticks and equals the scene origin. -/
theorem c6_sun_position_invariant (deltas : List ℚ) :
    (tickObjMany deltas (buildObject sunData)).mesh.position =
      (buildObject sunData).mesh.position ∧
    (buildObject sunData).mesh.position = Vec3.zero :=
  ⟨tickObjMany_mesh_position deltas (buildObject sunData), rfl⟩

/-- C7: a tick at elapsed time 10 s places the decorative entity at the
closed-form point of its tilted ellipse — angle 10·0.1 = 1 rad,
x = cos 1·300 ≈ 162.1, y = sin 1·200·sin(π/6) ≈ 84.1,
z = sin 1·200·cos(π/6) ≈ 145.7 — whatever its previous state, since the
position is a function of elapsed time alone, not an accumulated angle. -/
theorem c7_theo_closed_form_at_ten_seconds (s : TheoState) (camPos : RVec3) :
    (theoTick camPos 10 s).position =
      ⟨Real.cos 1 * 300, Real.sin 1 * 200 * Real.sin (Real.pi / 6),
       Real.sin 1 * 200 * Real.cos (Real.pi / 6)⟩ := by
  show (⟨Real.cos (10 * 0.1) * 300,
         Real.sin (10 * 0.1) * 200 * Real.sin (Real.pi / 6),
         Real.sin (10 * 0.1) * 200 * Real.cos (Real.pi / 6)⟩ : RVec3) = _
  norm_num

/-- C8: the billboarded entity's end-of-tick orientation is recomputed
from its (freshly set) position and the camera position alone: the
orientation is the look-at frame of those two points, and two runs of the
same tick from different prior orientations agree — the per-tick
rotation.z increment has no cumulative effect. -/
theorem c8_billboard_orientation_recomputed (p : RVec3) (o1 o2 : Mat3)
    (camPos : RVec3) (t : ℝ) :
    (theoTick camPos t ⟨p, o1⟩).orient =
      lookAtMat camPos (theoTick camPos t ⟨p, o1⟩).position ⟨0, 1, 0⟩ ∧
    (theoTick camPos t ⟨p, o1⟩).orient = (theoTick camPos t ⟨p, o2⟩).orient :=
  ⟨rfl, rfl⟩

/-- C9: a resize to (W,H) sets the camera aspect ratio to W/H and both
renderer viewports to (W,H), and leaves every body's state — hence every
orbital pivot angle and self-rotation angle — untouched. -/
theorem c9_resize_effect (w h : ℚ) (hw : 0 < w) (hh : 0 < h) (st : AppState) :
    (resize w h st).cameraAspect = w / h ∧
    (resize w h st).renderer = ⟨w, h⟩ ∧
    (resize w h st).labelRenderer = ⟨w, h⟩ ∧
    (resize w h st).objects = st.objects ∧
    (resize w h st).theo = st.theo :=
  ⟨rfl, rfl, rfl, rfl, rfl⟩

/-- C9 witness: a 1920×1080 resize of the startup state. -/
theorem c9_witness :
    (0 : ℚ) < 1920 ∧ (0 : ℚ) < 1080 ∧
    ((resize 1920 1080 initialAppState).cameraAspect = 1920 / 1080 ∧
     (resize 1920 1080 initialAppState).renderer = ⟨1920, 1080⟩ ∧
     (resize 1920 1080 initialAppState).labelRenderer = ⟨1920, 1080⟩ ∧
     (resize 1920 1080 initialAppState).objects = initialAppState.objects ∧
     (resize 1920 1080 initialAppState).theo = initialAppState.theo) :=
  ⟨by norm_num, by norm_num,
   c9_resize_effect 1920 1080 (by norm_num) (by norm_num) initialAppState⟩

/-- C10: for every non-central body the mesh's local position relative to
its orbit pivot stays exactly (orbitalRadius, 0, 0) after any number of
ticks: the stepper mutates only rotation angles, never local positions. -/
theorem c10_local_offset_invariant (data : CelestialBodyDescriptor) (R : ℚ)
    (h1 : data.isSun = false) (h2 : data.orbitalRadius = some R) (deltas : List ℚ) :
    (tickObjMany deltas (buildObject data)).mesh.position = ⟨R, 0, 0⟩ := by
  rw [tickObjMany_mesh_position]
  simp [buildObject, h1, h2]
  exact ⟨rfl, rfl⟩

/-- C10 witness: the Earth object keeps local offset (120,0,0) after two
ticks. -/
theorem c10_witness :
    earthData.isSun = false ∧ earthData.orbitalRadius = some 120 ∧
    (tickObjMany [0.016, 0.033] (buildObject earthData)).mesh.position = ⟨120, 0, 0⟩ :=
  ⟨rfl, rfl, c10_local_offset_invariant earthData 120 rfl rfl [0.016, 0.033]⟩

end SolarSim
